import Mathlib

/-!
Shallow embedding of the `nextjs-beginner-app` repository and proofs about it.

The repository consists of five small Next.js page files:
  * `pages/posts/[id].js` — the `Post` component and `getServerSideProps`;
  * `pages/index.js` — the static `Home` page;
  * `pages/about.js` — the static `About` page with `getStaticProps`;
  * `pages/api/hello.js` — the API route `handler`;
  * `pages/image-optimization.js` — the static `ImageOptimization` page.

JavaScript values reaching these functions are modelled by `JsValue`
(JSON-decodable values plus `undefined`; JSON numbers are modelled as
integers, which suffices here since no claim depends on fractional
values).  Rendered JSX output is modelled by the `Html` tree.  The
effectful parts (`fetch`, `res.json()`) are modelled by explicit
environment passing: a `FetchEnv` maps a request to either a thrown
error or a `Response`, and each page render produces a list of `Event`s
recording the outbound request, its completion, and the produced output.
-/

/-- A JavaScript value as it can occur in this program: the JSON values a
`res.json()` call can produce, plus `undefined` for absent properties. -/
inductive JsValue where
  | vNull : JsValue
  | vUndefined : JsValue
  | vBool : Bool → JsValue
  | vNum : Int → JsValue
  | vStr : String → JsValue
  | vArr : List JsValue → JsValue
  | vObj : List (String × JsValue) → JsValue
deriving Repr

/-- JavaScript truthiness: `null`, `undefined`, `false`, `0` and `""` are
falsy; every other value (including any object or array) is truthy. -/
def truthy : JsValue → Bool
  | JsValue.vNull => false
  | JsValue.vUndefined => false
  | JsValue.vBool b => b
  | JsValue.vNum n => n != 0
  | JsValue.vStr s => s != ""
  | JsValue.vArr _ => true
  | JsValue.vObj _ => true

/-- JavaScript property access `v.k` for the values in this program: on an
object it returns the named field (or `undefined` when absent); on any
non-object it returns `undefined` (the component only dereferences after
its truthiness check, so the null/undefined TypeError path is unreachable
in the source). -/
def getField (v : JsValue) (k : String) : JsValue :=
  match v with
  | JsValue.vObj fields =>
    match fields.find? (fun p => p.1 == k) with
    | some p => p.2
    | none => JsValue.vUndefined
  | _ => JsValue.vUndefined

/-- Rendered HTML output of a component: text nodes and elements with a
tag, attributes and children. -/
inductive Html where
  | text : String → Html
  | elem : String → List (String × String) → List Html → Html
deriving Repr

mutual

/-- A JSX interpolated child `{v}`, rendered the way React renders it:
strings and numbers become text, while `null`, `undefined` and booleans
render nothing.  Arrays are flattened.  (A plain object is not a valid
React child; it is modelled as rendering nothing — no claim exercises an
object in child position.) -/
def renderChild : JsValue → List Html
  | JsValue.vStr s => [Html.text s]
  | JsValue.vNum n => [Html.text (toString n)]
  | JsValue.vNull => []
  | JsValue.vUndefined => []
  | JsValue.vBool _ => []
  | JsValue.vObj _ => []
  | JsValue.vArr xs => renderChildList xs

/-- Renders a list of JSX children, flattening the results. -/
def renderChildList : List JsValue → List Html
  | [] => []
  | x :: xs => renderChild x ++ renderChildList xs

end

mutual

/-- The visible text content of a rendered tree, in document order. -/
def textContent : Html → String
  | Html.text s => s
  | Html.elem _ _ cs => textContentList cs

/-- The concatenated text content of a list of nodes. -/
def textContentList : List Html → String
  | [] => ""
  | c :: cs => textContent c ++ textContentList cs

end

/-- The `Post` component of `pages/posts/[id].js`:

    export default function Post({ post }) {
      if (!post) {
        return <div>Loading...</div>;
      }
      return (
        <div>
          <h1>{post.title}</h1>
          <p>{post.body}</p>
        </div>
      );
    }
-/
def Post (post : JsValue) : Html :=
  if truthy post = false then
    Html.elem "div" [] [Html.text "Loading..."]
  else
    Html.elem "div" []
      [Html.elem "h1" [] (renderChild (getField post "title")),
       Html.elem "p" [] (renderChild (getField post "body"))]

/-- Claim C1: for every post record with `title` and `body` string fields
that is truthy, the `Post` component renders the `title` text verbatim
inside an `h1` element and the `body` text verbatim inside a `p`
element. -/
theorem Post_renders_title_body (post : JsValue) (t b : String)
    (htr : truthy post = true)
    (ht : getField post "title" = JsValue.vStr t)
    (hb : getField post "body" = JsValue.vStr b) :
    Post post =
      Html.elem "div" []
        [Html.elem "h1" [] [Html.text t], Html.elem "p" [] [Html.text b]] := by
  simp [Post, htr, ht, hb, renderChild]

/-- Witness for C1 at a concrete record with title "First post" and body
"Body text". -/
theorem Post_renders_title_body_witness :
    Post (JsValue.vObj [("title", JsValue.vStr "First post"),
                        ("body", JsValue.vStr "Body text")]) =
      Html.elem "div" []
        [Html.elem "h1" [] [Html.text "First post"],
         Html.elem "p" [] [Html.text "Body text"]] :=
  Post_renders_title_body _ "First post" "Body text" rfl rfl rfl

/-- Claim C2: when the `post` value is falsy, the rendered output is a
single `div` whose entire text content is exactly "Loading...". -/
theorem Post_renders_placeholder (post : JsValue) (h : truthy post = false) :
    Post post = Html.elem "div" [] [Html.text "Loading..."] ∧
      textContent (Post post) = "Loading..." := by
  constructor
  · simp [Post, h]
  · simp [Post, h, textContent, textContentList]

/-- Witness for C2 at the concrete falsy value `null`. -/
theorem Post_renders_placeholder_witness :
    Post JsValue.vNull = Html.elem "div" [] [Html.text "Loading..."] ∧
      textContent (Post JsValue.vNull) = "Loading..." :=
  Post_renders_placeholder JsValue.vNull rfl

/-- Claim C9: the `Post` component renders the placeholder if and only if
`post` is falsy; in particular the truthy empty object (what a
nonexistent-id lookup can decode to) takes the normal branch and renders
empty `title` and `body` rather than the placeholder. -/
theorem Post_placeholder_iff_falsy :
    (∀ post : JsValue,
      Post post = Html.elem "div" [] [Html.text "Loading..."] ↔
        truthy post = false) ∧
    Post (JsValue.vObj []) =
      Html.elem "div" [] [Html.elem "h1" [] [], Html.elem "p" [] []] := by
  refine ⟨fun post => ?_, rfl⟩
  cases htr : truthy post with
  | false => simp [Post, htr]
  | true => simp [Post, htr]

/-- A JavaScript thrown error (only its message matters here). -/
abbrev JsError := String

/-- An outbound HTTP request as issued by `fetch` (a bare `fetch(url)`
call uses method GET). -/
structure Request where
  method : String
  url : String
deriving Repr, DecidableEq

/-- The response object returned by a successful `fetch`; its `json()`
method either decodes the body or throws. -/
structure Response where
  jsonResult : Except JsError JsValue

/-- The execution environment for the server-side code: what `fetch`
returns (or throws) for each request. -/
structure FetchEnv where
  fetch : Request → Except JsError Response

/-- The dynamic route parameters: `params.id` for `pages/posts/[id].js`. -/
structure Params where
  id : String

/-- The context object destructured as `{ params }` by
`getServerSideProps`. -/
structure Context where
  params : Params

/-- The URL built by the template literal
"https://jsonplaceholder.typicode.com/posts/" followed by `params.id`
(a string; interpolation of a string is itself). -/
def postUrl (id : String) : String :=
  "https://jsonplaceholder.typicode.com/posts/" ++ id

/-- Observable events of one server-side page render: an outbound request
being issued, its awaited completion, and the page producing output. -/
inductive Event where
  | request : Request → Event
  | response : Request → Event
  | output : Html → Event
deriving Repr

/-- `getServerSideProps` of `pages/posts/[id].js`:

    export async function getServerSideProps({ params }) {
      const res = await fetch(`https:...typicode.com/posts/[id]`);
      const post = await res.json();
      return {
        props: { post },
      };
    }

The result is either the returned object or the uncaught thrown error
(there is no try/catch in the source), paired with the trace of events:
the request is issued in every run; the response event is recorded once
the awaited `fetch` completes successfully. -/
def getServerSideProps (env : FetchEnv) (ctx : Context) :
    Except JsError JsValue × List Event :=
  let req : Request := { method := "GET", url := postUrl ctx.params.id }
  match env.fetch req with
  | Except.error e => (Except.error e, [Event.request req])
  | Except.ok res =>
    match res.jsonResult with
    | Except.error e => (Except.error e, [Event.request req, Event.response req])
    | Except.ok post =>
      (Except.ok (JsValue.vObj [("props", JsValue.vObj [("post", post)])]),
       [Event.request req, Event.response req])

/-- One full server-side render of `pages/posts/[id].js`: run
`getServerSideProps`; on success the framework passes `props.post` to the
`Post` component and the page produces output; on an uncaught error no
output is produced. -/
def renderPostPage (env : FetchEnv) (id : String) : List Event :=
  match getServerSideProps env { params := { id := id } } with
  | (Except.error _, evs) => evs
  | (Except.ok ret, evs) =>
    evs ++ [Event.output (Post (getField (getField ret "props") "post"))]

/-- The requests issued in a trace, in order. -/
def requestsOf : List Event → List Request
  | [] => []
  | Event.request r :: es => r :: requestsOf es
  | Event.response _ :: es => requestsOf es
  | Event.output _ :: es => requestsOf es

/-- Holds when no output event occurs before the first response event:
the render waits for the awaited operation before producing output. -/
def noOutputBeforeResponse : List Event → Bool
  | [] => true
  | Event.output _ :: _ => false
  | Event.response _ :: _ => true
  | Event.request _ :: es => noOutputBeforeResponse es

/-- Holds when every event of the trace is either the given request, its
response, or a produced output — no other side effect occurs. -/
def onlyReadAndOutput (req : Request) : List Event → Bool
  | [] => true
  | Event.request r :: es => r == req && onlyReadAndOutput req es
  | Event.response r :: es => r == req && onlyReadAndOutput req es
  | Event.output _ :: es => onlyReadAndOutput req es

/-- Claim C3: for every route parameter `id` (no validation performed) and
every environment, `getServerSideProps` issues exactly one request, a GET
to `https://jsonplaceholder.typicode.com/posts/` with `id` appended. -/
theorem gssp_single_get_request (env : FetchEnv) (ctx : Context) :
    requestsOf (getServerSideProps env ctx).2 =
      [{ method := "GET",
         url := "https://jsonplaceholder.typicode.com/posts/" ++ ctx.params.id }] := by
  rcases hf : env.fetch { method := "GET", url := postUrl ctx.params.id } with e | r
  · simp only [getServerSideProps, hf]
    simp [requestsOf, postUrl]
  · rcases hj : r.jsonResult with e | p
    · simp only [getServerSideProps, hf, hj]
      simp [requestsOf, postUrl]
    · simp only [getServerSideProps, hf, hj]
      simp [requestsOf, postUrl]

/-- Claim C4: `getServerSideProps` has no error-handling branch: when the
`fetch` throws, or when `res.json()` throws, the very same error
propagates out as the result — no catch, no fallback value, no distinct
error result. -/
theorem gssp_error_propagates (env : FetchEnv) (ctx : Context) :
    (∀ e, env.fetch { method := "GET", url := postUrl ctx.params.id } =
        Except.error e →
      (getServerSideProps env ctx).1 = Except.error e) ∧
    (∀ r e, env.fetch { method := "GET", url := postUrl ctx.params.id } =
        Except.ok r →
      r.jsonResult = Except.error e →
      (getServerSideProps env ctx).1 = Except.error e) := by
  constructor
  · intro e hf
    simp [getServerSideProps, hf]
  · intro r e hf hj
    simp [getServerSideProps, hf, hj]

/-- Witness for C4: in an environment whose fetch throws "network
failure" the result of `getServerSideProps` is that uncaught error. -/
theorem gssp_error_propagates_witness :
    (getServerSideProps { fetch := fun _ => Except.error "network failure" }
      { params := { id := "1" } }).1 = Except.error "network failure" :=
  (gssp_error_propagates
    { fetch := fun _ => Except.error "network failure" }
    { params := { id := "1" } }).1 "network failure" rfl

/-- Claim C6: whenever the response body decodes successfully to `post`,
`getServerSideProps` returns exactly the object `{ props: { post } }`:
the decoded record unchanged, under the single key `post`, under the
single key `props`. -/
theorem gssp_props_shape (env : FetchEnv) (ctx : Context) (r : Response)
    (post : JsValue)
    (hf : env.fetch { method := "GET", url := postUrl ctx.params.id } =
      Except.ok r)
    (hj : r.jsonResult = Except.ok post) :
    (getServerSideProps env ctx).1 =
      Except.ok (JsValue.vObj [("props", JsValue.vObj [("post", post)])]) := by
  simp [getServerSideProps, hf, hj]

/-- Witness for C6: a concrete environment whose response decodes to the
empty object yields exactly `{ props: { post: {} } }`. -/
theorem gssp_props_shape_witness :
    (getServerSideProps
      { fetch := fun _ => Except.ok { jsonResult := Except.ok (JsValue.vObj []) } }
      { params := { id := "1" } }).1 =
      Except.ok (JsValue.vObj [("props", JsValue.vObj [("post", JsValue.vObj [])])]) :=
  gssp_props_shape _ _ _ _ rfl rfl

/-- Claim C8: every render of the dynamic content page performs at most
one network operation, produces no output before the awaited operation
has completed, and has no side effect beyond that single outbound read
(every event of the trace is the single GET request, its completion, or
the produced output). -/
theorem post_page_single_network_op (env : FetchEnv) (id : String) :
    (requestsOf (renderPostPage env id)).length ≤ 1 ∧
    noOutputBeforeResponse (renderPostPage env id) = true ∧
    onlyReadAndOutput { method := "GET", url := postUrl id }
      (renderPostPage env id) = true := by
  rcases hf : env.fetch { method := "GET", url := postUrl id } with e | r
  · simp only [renderPostPage, getServerSideProps, hf]
    simp [requestsOf, noOutputBeforeResponse, onlyReadAndOutput]
  · rcases hj : r.jsonResult with e | p
    · simp only [renderPostPage, getServerSideProps, hf, hj]
      simp [requestsOf, noOutputBeforeResponse, onlyReadAndOutput]
    · simp only [renderPostPage, getServerSideProps, hf, hj]
      simp [requestsOf, noOutputBeforeResponse, onlyReadAndOutput]

/-- The image asset path bundled by the static import of
`../public/nextjs.png` in `pages/index.js`. -/
def myImage : String := "/nextjs.png"

/-- The `Home` component of `pages/index.js`: a static tree with a
heading, a paragraph and the optimized image reference. -/
def Home : Html :=
  Html.elem "div" []
    [Html.elem "h1" [] [Html.text "Welcome to Next.js!"],
     Html.elem "p" [] [Html.text "This is the home page."],
     Html.elem "img"
       [("src", myImage), ("alt", "Next.js Logo"),
        ("width", "200"), ("height", "200")] []]

/-- The `About` component of `pages/about.js` (source given in the
repository README): a static heading and paragraph. -/
def About : Html :=
  Html.elem "div" []
    [Html.elem "h1" [] [Html.text "About Us"],
     Html.elem "p" [] [Html.text "This page is statically generated."]]

/-- `getStaticProps` of `pages/about.js` (source given in the repository
README): returns `{ props: {} }` and performs no request. -/
def getStaticProps : JsValue × List Event :=
  (JsValue.vObj [("props", JsValue.vObj [])], [])

/-- The `ImageOptimization` component of `pages/image-optimization.js`:
a static tree with a heading, a paragraph and a priority image. -/
def ImageOptimization : Html :=
  Html.elem "div" []
    [Html.elem "h1" [] [Html.text "Next.js Image Optimization"],
     Html.elem "p" []
       [Html.text "This page demonstrates optimized image loading with Next.js."],
     Html.elem "img"
       [("src", "/nextjs.png"), ("alt", "Optimized Image"),
        ("width", "400"), ("height", "300"), ("priority", "")] []]

/-- One render of the static `Home` page: the component takes no props and
makes no call, so the trace is just its output, whatever the environment. -/
def renderHomePage (e : FetchEnv) : List Event :=
  [Event.output Home]

/-- One render of the static `About` page: `getStaticProps` supplies empty
props and the component makes no call, so the trace is just its output. -/
def renderAboutPage (e : FetchEnv) : List Event :=
  [Event.output About]

/-- Claim C7: the static Home and About pages perform no external call and
their rendered output is invariant across invocations: any two
invocations (in any two environments) produce identical traces, and those
traces contain no request. -/
theorem static_pages_invariant (e₁ e₂ : FetchEnv) :
    renderHomePage e₁ = renderHomePage e₂ ∧
    renderAboutPage e₁ = renderAboutPage e₂ ∧
    requestsOf (renderHomePage e₁) = [] ∧
    requestsOf (renderAboutPage e₁) = [] := by
  refine ⟨rfl, rfl, ?_, ?_⟩ <;> simp [renderHomePage, renderAboutPage, requestsOf]

/-- The hex digit for a value below 16, lowercase. -/
def hexDigit (n : Nat) : Char :=
  if n < 10 then Char.ofNat (48 + n) else Char.ofNat (87 + n)

/-- JSON string escaping as performed by `JSON.stringify`: quote,
backslash and the common control characters get two-character escapes;
other control characters get a `\u00..` escape; everything else is kept
as is. -/
def escapeChar (c : Char) : String :=
  if c = '"' then "\\\""
  else if c = '\\' then "\\\\"
  else if c = '\n' then "\\n"
  else if c = '\r' then "\\r"
  else if c = '\t' then "\\t"
  else if c.toNat < 32 then
    String.mk ['\\', 'u', '0', '0', hexDigit (c.toNat / 16), hexDigit (c.toNat % 16)]
  else String.singleton c

/-- Escapes every character of a string for inclusion in a JSON string
literal. -/
def jsonEscape (s : String) : String :=
  String.join (s.toList.map escapeChar)

mutual

/-- `JSON.stringify` for the modelled values.  (`undefined` cannot occur
in the serialized values of this program; it is mapped to `null` as it
would be inside an array.) -/
def jsonStringify : JsValue → String
  | JsValue.vNull => "null"
  | JsValue.vUndefined => "null"
  | JsValue.vBool b => if b then "true" else "false"
  | JsValue.vNum n => toString n
  | JsValue.vStr s => "\"" ++ jsonEscape s ++ "\""
  | JsValue.vArr xs => "[" ++ jsonStringifyElems xs ++ "]"
  | JsValue.vObj fields => "\x7b" ++ jsonStringifyFields fields ++ "\x7d"

/-- Serializes the comma-separated elements of a JSON array. -/
def jsonStringifyElems : List JsValue → String
  | [] => ""
  | [v] => jsonStringify v
  | v :: rest => jsonStringify v ++ "," ++ jsonStringifyElems rest

/-- Serializes the comma-separated `"key":value` fields of a JSON
object. -/
def jsonStringifyFields : List (String × JsValue) → String
  | [] => ""
  | [(k, v)] => "\"" ++ jsonEscape k ++ "\":" ++ jsonStringify v
  | (k, v) :: rest =>
    "\"" ++ jsonEscape k ++ "\":" ++ jsonStringify v ++ "," ++
      jsonStringifyFields rest

end

/-- An incoming request to the API route, with everything a handler could
read from it. -/
structure ApiRequest where
  method : String
  url : String
  headers : List (String × String)
  body : String

/-- The mutable response object of an API route, reduced to the state the
handler can set: the status code and the serialized body. -/
structure ServerResponse where
  statusCode : Option Nat
  body : Option String
deriving Repr, DecidableEq

/-- `res.status(code)`: sets the status code and returns the response for
chaining. -/
def ServerResponse.status (res : ServerResponse) (code : Nat) : ServerResponse :=
  { res with statusCode := some code }

/-- `res.json(v)`: serializes `v` with `JSON.stringify` and sends it as
the body. -/
def ServerResponse.json (res : ServerResponse) (v : JsValue) : ServerResponse :=
  { res with body := some (jsonStringify v) }

/-- The API route `handler` of `pages/api/hello.js` (source given in the
repository README):

    export default function handler(req, res) {
      res.status(200).json({ text: 'Hello from Next.js API!' });
    }
-/
def handler (req : ApiRequest) (res : ServerResponse) : ServerResponse :=
  (res.status 200).json (JsValue.vObj [("text", JsValue.vStr "Hello from Next.js API!")])

/-- Claim C5: for every request and every prior response state, the API
handler responds with status 200 and the literal JSON body
`\x7b"text":"Hello from Next.js API!"\x7d`. -/
theorem handler_constant_response (req : ApiRequest) (res : ServerResponse) :
    handler req res =
      { statusCode := some 200,
        body := some "\x7b\"text\":\"Hello from Next.js API!\"\x7d" } := by
  rfl

/-- Claim C10: the handler never reads its request argument: any two
requests, whatever their method, url, headers or body, produce the same
response. -/
theorem handler_ignores_request (req₁ req₂ : ApiRequest) (res : ServerResponse) :
    handler req₁ res = handler req₂ res :=
  rfl
